import Mathlib

/-
Verification of the route geometry pipeline of the Heidelberg bike-sharing
survey app (src/app.py) against its specification.

Embedding conventions:
* Python floats are modelled as exact rationals (ℚ); the claims under study
  are structural (which value is chosen, in which order, how many points),
  not about binary floating-point error.
* A coordinate pair is a `ℚ × ℚ`.  Raw drawing coordinates and GeoJSON
  coordinates are `[lon, lat]` pairs (first component = x = longitude slot);
  points handed to the snapper and produced by the densifier are
  `(lat, lon)` pairs, following the source.
* The geodesic distance function (`geopy.distance.geodesic(..).meters`) is an
  external library, not code of this repository; every theorem that depends
  on it is stated for an arbitrary `dist : ℚ × ℚ → ℚ × ℚ → ℚ`, and concrete
  witnesses instantiate it with `geodesicModel` below.
* Fallible paths are `Except`/sum types; Streamlit session state is passed
  explicitly (the submit handler becomes a function of the form inputs and
  the collected routes, returning the list of rows handed to `append_row`,
  in call order).
-/

namespace BikeSurvey

/-! ## Coordinate Normalizer (src/app.py lines 353-358)

The snap button handler converts each raw drawn coordinate `c` into a
`(lat, lon)` pair: if `abs(c[0]) > 90` it appends `(c[1], c[0])`, else
`(c[0], c[1])`. -/

/-- One step of the normalization loop: raw pair `(x, y)` becomes `(y, x)`
when `|x| > 90`, and stays `(x, y)` otherwise. -/
def normalizePoint (c : ℚ × ℚ) : ℚ × ℚ :=
  if 90 < |c.1| then (c.2, c.1) else (c.1, c.2)

/-- The `for c in coords` loop building `latlon_pts`, applied pointwise. -/
def normalizePath (coords : List (ℚ × ℚ)) : List (ℚ × ℚ) :=
  coords.map normalizePoint

/-! ## Route Snapper, request phase (src/app.py lines 121-133)

`osrm_snap_route` first checks `len(latlon_points) < 2` and returns the
error triple `(None, 0.0, "Need at least start & end.")` without touching
the network.  Otherwise it builds the coordinate string

    coords = ";".join([f"..lon..,..lat.." for lat,lat in latlon_points])

The tuple target `lat,lat` binds the name `lat` twice (it ends up holding
the second tuple component) and binds nothing to `lon`; the name `lon` is
not a local of `osrm_snap_route` and is never assigned at module level, so
evaluating the f-string raises `NameError: name 'lon' is not defined` on
the first element — before the `try:` block and before any HTTP request. -/

/-- A Python `NameError` raised while serializing the coordinates. -/
inductive PyNameError
  | lonUnbound
deriving DecidableEq

/-- Scope lookup for the free name `lon` inside the list comprehension on
line 129: it is not bound in the comprehension (the target `lat,lat` only
binds `lat`), not in `osrm_snap_route`, and not at module level. -/
def globalLonBinding : Option ℚ := none

/-- Rendering of one point by the comprehension on line 129.  The target
binds `lat := p.1` and then `lat := p.2`; the f-string then evaluates the
unbound name `lon`, raising `NameError`.  (Were `lon` bound, the rendered
pair would be `(lon, lat)` with `lat = p.2`.) -/
def renderPointLine129 (p : ℚ × ℚ) : Except PyNameError (ℚ × ℚ) :=
  match globalLonBinding with
  | none => Except.error PyNameError.lonUnbound
  | some lonValue => Except.ok (lonValue, p.2)

/-- The full comprehension: renders every point left to right, stopping at
the first raised exception. -/
def serializeCoords (latlon_points : List (ℚ × ℚ)) :
    Except PyNameError (List (ℚ × ℚ)) :=
  latlon_points.mapM renderPointLine129

/-- Outcome of `osrm_snap_route` up to the point where the HTTP GET of line
133 would be issued.
* `insufficientPoints` — returned `(None, 0.0, "Need at least start &
  end.")`; no network call.
* `raisedNameError` — a `NameError` escaped from line 129; no network call.
* `issued pairs` — the single GET to
  `{OSRM_BASE}/route/v1/cycling/{...}` with query parameters
  `overview=full`, `geometries=geojson`, `steps=false` and `timeout=20`
  would be issued, with `pairs` the serialized coordinate pairs in order. -/
inductive RequestOutcome
  | insufficientPoints
  | raisedNameError
  | issued (pairs : List (ℚ × ℚ))
deriving DecidableEq

/-- Request phase of `osrm_snap_route` (lines 126-133). -/
def osrm_request_phase (latlon_points : List (ℚ × ℚ)) : RequestOutcome :=
  if latlon_points.length < 2 then RequestOutcome.insufficientPoints
  else
    match serializeCoords latlon_points with
    | Except.error _ => RequestOutcome.raisedNameError
    | Except.ok pairs => RequestOutcome.issued pairs

lemma serializeCoords_cons (p : ℚ × ℚ) (rest : List (ℚ × ℚ)) :
    serializeCoords (p :: rest) = Except.error PyNameError.lonUnbound := rfl

/-- C6: for every raw 2-tuple `(x, y)` the normalizer returns `(y, x)` when
`|x| > 90` and `(x, y)` unchanged otherwise, and applied pointwise to a raw
path it preserves input order (the i-th output is the normalization of the
i-th input). -/
theorem normalizer_swap_rule (x y : ℚ) (path : List (ℚ × ℚ)) :
    (90 < |x| → normalizePoint (x, y) = (y, x)) ∧
    (¬ 90 < |x| → normalizePoint (x, y) = (x, y)) ∧
    (normalizePath path).length = path.length ∧
    (∀ i : ℕ, (normalizePath path)[i]? = (path[i]?).map normalizePoint) := by
  refine ⟨fun h => ?_, fun h => ?_, ?_, fun i => ?_⟩
  · simp [normalizePoint, h]
  · simp [normalizePoint, h]
  · simp [normalizePath]
  · simp [normalizePath]

/-- Witness for C6: `(120.5, 8.67)` is swapped to `(8.67, 120.5)`, while
`(49.4, 8.67)` is returned unchanged. -/
theorem normalizer_swap_rule_witness :
    normalizePoint (241/2, 867/100) = (867/100, 241/2) ∧
    normalizePoint (494/10, 867/100) = (494/10, 867/100) :=
  ⟨(normalizer_swap_rule (241/2) (867/100) []).1
     (by rw [abs_of_pos (by norm_num : (0:ℚ) < 241/2)]; norm_num),
   ((normalizer_swap_rule (494/10) (867/100) []).2).1
     (by rw [not_lt, abs_of_pos (by norm_num : (0:ℚ) < 494/10)]; norm_num)⟩

/-- C9: with fewer than 2 points the snapper fails with the
insufficient-points error ("Need at least start & end."), returning no
geometry (the geometry slot is `None`, the distance slot the placeholder
`0.0`), and the request phase never reaches the `issued` outcome: zero
network calls. -/
theorem snap_rejects_fewer_than_two_points (pts : List (ℚ × ℚ))
    (h : pts.length < 2) :
    osrm_request_phase pts = RequestOutcome.insufficientPoints := by
  simp [osrm_request_phase, h]

/-- Witness for C9: the empty drawing is rejected without a network call. -/
theorem snap_rejects_fewer_than_two_points_witness :
    osrm_request_phase [] = RequestOutcome.insufficientPoints :=
  snap_rejects_fewer_than_two_points [] (by simp)

/-- C1 (code bug): for every input of at least two points the coordinate
serialization on line 129 raises `NameError` (`for lat,lat` leaves `lon`
unbound), so `osrm_snap_route` never issues the HTTP GET that the spec (and
the code's own comment "Build coordinates string as lon,lat;lon,lat...")
describes. -/
theorem snap_serialization_name_error (pts : List (ℚ × ℚ))
    (h : 2 ≤ pts.length) :
    osrm_request_phase pts = RequestOutcome.raisedNameError := by
  cases pts with
  | nil => simp at h
  | cons p rest =>
      have hlen : ¬ (p :: rest).length < 2 := by omega
      simp only [osrm_request_phase, if_neg hlen, serializeCoords_cons]

/-- Witness for C1: the two-point input `[(49.4029, 8.6726),
(49.4108, 8.6900)]` (Hbf Süd to Bismarckplatz) raises the `NameError`
instead of issuing the request. -/
theorem snap_serialization_name_error_witness :
    osrm_request_phase [(494029/10000, 86726/10000), (494108/10000, 869/100)]
      = RequestOutcome.raisedNameError :=
  snap_serialization_name_error
    [(494029/10000, 86726/10000), (494108/10000, 869/100)] (by simp)

/-! ## Route Snapper, response phase (src/app.py lines 135-151)

Given the parsed JSON body of the service response, `osrm_snap_route`
takes `data.get("routes", [])`, fails with "No route found." when the list
is empty, and otherwise returns the first route's GeoJSON geometry together
with `routes[0].get("distance")`; when that field is absent or falsy
(`if not dist_m:`) it recomputes the length by summing
`geodesic((c[i-1][1], c[i-1][0]), (c[i][1], c[i][0])).meters` over
`i in range(1, len(coords))`. -/

/-- One candidate route of the service response: GeoJSON `[lon, lat]`
coordinates plus the optional reported `distance` field. -/
structure OsrmRoute where
  geometry : List (ℚ × ℚ)
  distance : Option ℚ
deriving DecidableEq

/-- The parsed response body: its `routes` list (`data.get("routes", [])`). -/
structure OsrmResponse where
  routes : List OsrmRoute
deriving DecidableEq

/-- Reorder a GeoJSON `[lon, lat]` pair into `(lat, lon)`, as the source
does with `(coords[i][1], coords[i][0])`. -/
def swapLonLat (c : ℚ × ℚ) : ℚ × ℚ := (c.2, c.1)

/-- Python truthiness of the optional `distance` field: `None` and `0.0`
are falsy, every other number is truthy (`if not dist_m:`). -/
def truthy : Option ℚ → Bool
  | none => false
  | some d => if d = 0 then false else true

/-- The fallback length loop of lines 145-150: `d = 0.0`, then
`d += geodesic(a, b).meters` over consecutive coordinate pairs, where `a`
and `b` are the lon/lat-swapped `coords[i-1]`, `coords[i]`. -/
def geodesicSum (dist : ℚ × ℚ → ℚ × ℚ → ℚ) (coords : List (ℚ × ℚ)) : ℚ :=
  (List.zip coords coords.tail).foldl
    (fun d p => d + dist (swapLonLat p.1) (swapLonLat p.2)) 0

/-- The "recompute distance for safety" loop of the submit handler
(lines 409-413) — textually the same accumulation as the snapper fallback. -/
def recomputeDistance (dist : ℚ × ℚ → ℚ × ℚ → ℚ) (coords : List (ℚ × ℚ)) : ℚ :=
  (List.zip coords coords.tail).foldl
    (fun d p => d + dist (swapLonLat p.1) (swapLonLat p.2)) 0

/-- Failure of the response phase: `routes` absent or empty
("No route found."). -/
inductive ResponseError
  | noRouteFound
deriving DecidableEq

/-- Response phase of `osrm_snap_route` (lines 135-151): on success the
returned pair is the first route's geometry and its distance (reported, or
the geodesic fallback when the reported field is absent or falsy). -/
def osrm_response_phase (dist : ℚ × ℚ → ℚ × ℚ → ℚ) (resp : OsrmResponse) :
    Except ResponseError (List (ℚ × ℚ) × ℚ) :=
  match resp.routes with
  | [] => Except.error ResponseError.noRouteFound
  | r :: _ =>
      let dm := if truthy r.distance then r.distance.getD 0
                else geodesicSum dist r.geometry
      Except.ok (r.geometry, dm)

/-- Specification-side sum of pairwise distances over every consecutive
pair of a point list, written as direct structural recursion. -/
def pairwiseSum (dist : ℚ × ℚ → ℚ × ℚ → ℚ) : List (ℚ × ℚ) → ℚ
  | a :: b :: rest => dist a b + pairwiseSum dist (b :: rest)
  | _ => 0

/-- Modelled from the spec: the geodesic distance utility
(`geopy.distance.geodesic(a, b).meters`) is an external library, absent
from src/.  The spec requires only that it is a pure nonnegative symmetric
function with `distance(a, a) = 0`; this concrete model (≈111 km per degree
of taxicab displacement on `(lat, lon)` pairs) has those properties and is
used to instantiate witnesses.  All general theorems quantify over an
arbitrary distance function instead. -/
def geodesicModel (a b : ℚ × ℚ) : ℚ :=
  111000 * (|a.1 - b.1| + |a.2 - b.2|)

lemma geodesicModel_nonneg (a b : ℚ × ℚ) : 0 ≤ geodesicModel a b := by
  have h1 : (0:ℚ) ≤ |a.1 - b.1| := abs_nonneg _
  have h2 : (0:ℚ) ≤ |a.2 - b.2| := abs_nonneg _
  unfold geodesicModel
  nlinarith

lemma geodesicModel_self (a : ℚ × ℚ) : geodesicModel a a = 0 := by
  simp [geodesicModel]

lemma foldl_zip_pairwiseSum (dist : ℚ × ℚ → ℚ × ℚ → ℚ) :
    ∀ (rest : List (ℚ × ℚ)) (a : ℚ × ℚ) (acc : ℚ),
      (List.zip (a :: rest) rest).foldl
          (fun d p => d + dist (swapLonLat p.1) (swapLonLat p.2)) acc
        = acc + pairwiseSum dist (List.map swapLonLat (a :: rest)) := by
  intro rest
  induction rest with
  | nil => intro a acc; simp [pairwiseSum]
  | cons b rest ih =>
      intro a acc
      have hzip : List.zip (a :: b :: rest) (b :: rest)
          = (a, b) :: List.zip (b :: rest) rest := rfl
      rw [hzip, List.foldl_cons, ih b]
      simp only [List.map_cons, pairwiseSum]
      ring

/-- The fallback loop computes exactly the pairwise sum over the swapped
coordinates. -/
lemma geodesicSum_eq_pairwiseSum (dist : ℚ × ℚ → ℚ × ℚ → ℚ)
    (coords : List (ℚ × ℚ)) :
    geodesicSum dist coords = pairwiseSum dist (coords.map swapLonLat) := by
  cases coords with
  | nil => simp [geodesicSum, pairwiseSum]
  | cons a rest =>
      unfold geodesicSum
      rw [show (a :: rest).tail = rest from rfl, foldl_zip_pairwiseSum]
      ring

/-- The submit handler's recomputation loop is the same accumulation as the
snapper's fallback loop. -/
lemma recomputeDistance_eq_geodesicSum :
    recomputeDistance = geodesicSum := rfl

lemma pairwiseSum_nonneg (dist : ℚ × ℚ → ℚ × ℚ → ℚ)
    (hdist : ∀ a b, 0 ≤ dist a b) :
    ∀ coords : List (ℚ × ℚ), 0 ≤ pairwiseSum dist coords := by
  intro coords
  induction coords with
  | nil => simp [pairwiseSum]
  | cons a rest ih =>
      cases rest with
      | nil => simp [pairwiseSum]
      | cons b rest' =>
          have := hdist a b
          simp only [pairwiseSum] at ih ⊢
          linarith

/-- C4: whenever the service's reported `distance` field is absent or falsy,
the distance returned by the snapper equals the sum of pairwise geodesic
distances over every consecutive pair of the returned geometry, accumulated
in full geometry order with no skipped vertices. -/
theorem fallback_distance_is_pairwise_geodesic_sum
    (dist : ℚ × ℚ → ℚ × ℚ → ℚ) (resp : OsrmResponse)
    (r : OsrmRoute) (rest : List OsrmRoute)
    (hroutes : resp.routes = r :: rest)
    (hfalsy : truthy r.distance = false) :
    osrm_response_phase dist resp =
      Except.ok (r.geometry, pairwiseSum dist (r.geometry.map swapLonLat)) := by
  obtain ⟨routes⟩ := resp
  simp only at hroutes
  subst hroutes
  simp [osrm_response_phase, hfalsy, geodesicSum_eq_pairwiseSum]

/-- Witness for C4: a mocked response with `distance` omitted and geometry
`[[8.67, 49.40], [8.69, 49.41]]` returns the pairwise geodesic sum. -/
theorem fallback_distance_is_pairwise_geodesic_sum_witness :
    osrm_response_phase geodesicModel
        { routes := [{ geometry := [(867/100, 494/10), (869/100, 4941/100)],
                       distance := none }] }
      = Except.ok ([(867/100, 494/10), (869/100, 4941/100)],
          pairwiseSum geodesicModel
            [(494/10, 867/100), (4941/100, 869/100)]) :=
  fallback_distance_is_pairwise_geodesic_sum geodesicModel _ _ [] rfl rfl

/-- C7: on every successful snap (the response carries at least one
candidate route) whose response is well formed — a LineString geometry of
at least 2 points and a nonnegative reported distance when present, as the
routing-service interface guarantees — and for a nonnegative distance
function, the returned distance is nonnegative and the returned geometry
has at least 2 points (the code passes the service's geometry through,
so the bound is inherited from the response). -/
theorem snap_success_distance_nonneg_geometry_two
    (dist : ℚ × ℚ → ℚ × ℚ → ℚ) (resp : OsrmResponse)
    (r : OsrmRoute) (rest : List OsrmRoute)
    (hdist : ∀ a b, 0 ≤ dist a b)
    (hroutes : resp.routes = r :: rest)
    (hgeom : 2 ≤ r.geometry.length)
    (hwf : ∀ d, r.distance = some d → 0 ≤ d) :
    ∃ g dm, osrm_response_phase dist resp = Except.ok (g, dm) ∧
      0 ≤ dm ∧ 2 ≤ g.length := by
  obtain ⟨routes⟩ := resp
  simp only at hroutes
  subst hroutes
  refine ⟨r.geometry, _, rfl, ?_, hgeom⟩
  cases hd : r.distance with
  | none =>
      simp [osrm_response_phase, hd, truthy, geodesicSum_eq_pairwiseSum]
      exact pairwiseSum_nonneg dist hdist _
  | some d =>
      have hd0 := hwf d hd
      by_cases hz : d = 0
      · simp [osrm_response_phase, hd, hz, truthy, geodesicSum_eq_pairwiseSum]
        exact pairwiseSum_nonneg dist hdist _
      · simp [osrm_response_phase, hd, hz, truthy]
        exact hd0

/-- Witness for C7: a well-formed two-point response with `distance`
omitted yields a nonnegative distance and a 2-point geometry. -/
theorem snap_success_distance_nonneg_geometry_two_witness :
    ∃ g dm,
      osrm_response_phase geodesicModel
          { routes := [{ geometry := [(867/100, 494/10), (869/100, 4941/100)],
                         distance := none }] }
        = Except.ok (g, dm) ∧ 0 ≤ dm ∧ 2 ≤ g.length :=
  snap_success_distance_nonneg_geometry_two geodesicModel _ _ []
    geodesicModel_nonneg rfl (by simp) (by intro d hd; cases hd)

/-- C2 (corrected), counterexample: a route whose service response reports
the truthy distance 5.0 for the degenerate geometry
`[[8.67, 49.40], [8.67, 49.40]]` shows the preview distance 5, while the
submit handler's recomputation over the same geometry yields 0 (only the
property `distance(a, a) = 0` of the geodesic is used): the two values
differ by 5 m, beyond any floating-point rounding. -/
theorem preview_submit_distance_counterexample :
    osrm_response_phase geodesicModel
        { routes := [{ geometry := [(867/100, 494/10), (867/100, 494/10)],
                       distance := some 5 }] }
      = Except.ok ([(867/100, 494/10), (867/100, 494/10)], 5) ∧
    recomputeDistance geodesicModel [(867/100, 494/10), (867/100, 494/10)]
      = 0 ∧
    (5 : ℚ) ≠ 0 := by
  refine ⟨?_, ?_, by norm_num⟩
  · simp [osrm_response_phase, truthy]
  · simp [recomputeDistance, geodesicModel_self]

/-- C2 (amended): whenever the snapper's distance came from the geodesic
fallback (service `distance` absent or falsy), the preview distance equals
the distance recomputed at submission time from the same geometry (the
stored record additionally rounds it to 0.1 m). -/
theorem preview_distance_matches_submit_recompute_on_fallback
    (dist : ℚ × ℚ → ℚ × ℚ → ℚ) (resp : OsrmResponse)
    (r : OsrmRoute) (rest : List OsrmRoute)
    (hroutes : resp.routes = r :: rest)
    (hfalsy : truthy r.distance = false) :
    ∃ g dm, osrm_response_phase dist resp = Except.ok (g, dm) ∧
      recomputeDistance dist g = dm := by
  obtain ⟨routes⟩ := resp
  simp only at hroutes
  subst hroutes
  refine ⟨r.geometry, _, rfl, ?_⟩
  simp [hfalsy, recomputeDistance_eq_geodesicSum]

/-- Witness for C2's amended claim: with `distance` omitted, preview and
submit-time recomputation agree on a concrete two-point geometry. -/
theorem preview_distance_matches_submit_recompute_on_fallback_witness :
    ∃ g dm,
      osrm_response_phase geodesicModel
          { routes := [{ geometry := [(867/100, 494/10), (869/100, 4941/100)],
                         distance := some 0 }] }
        = Except.ok (g, dm) ∧ recomputeDistance geodesicModel g = dm :=
  preview_distance_matches_submit_recompute_on_fallback geodesicModel _ _ []
    rfl (by simp [truthy])

/-! ## Submit handler (src/app.py lines 393-431)

The "Submit all my routes" button checks consent, then non-emptiness of
`st.session_state["my_routes"]`, then builds one row per collected route
(skipping any route whose `coordinates` list is empty) and calls
`append_row(row)` for each, in loop order.  The handler is modelled as a
function of the sidebar form values plus the collected geometries,
returning either the error shown to the user or the list of rows handed to
`append_row`, in call order; an error therefore means zero writes reach
the Route Store. -/

/-- Python's `round(x, ndigits)` ties-to-even rounding, on exact rationals:
the integer nearest to `x`, ties going to the even integer. -/
def roundHalfEven (x : ℚ) : ℤ :=
  if x - ⌊x⌋ < 1/2 then ⌊x⌋
  else if 1/2 < x - ⌊x⌋ then ⌊x⌋ + 1
  else if ⌊x⌋ % 2 = 0 then ⌊x⌋ else ⌊x⌋ + 1

/-- Python's `round(x, ndigits)` for nonnegative `ndigits`. -/
def pyRound (ndigits : ℕ) (x : ℚ) : ℚ :=
  (roundHalfEven (x * 10 ^ ndigits) : ℚ) / 10 ^ ndigits

/-- A rational that carries at most 6 decimal places (the precision of the
routing service's GeoJSON coordinates, which are fixed-point multiples of
10⁻⁶). -/
def sixDecimal (q : ℚ) : Prop := (q * 1000000).den = 1

/-- One row handed to `append_row` (the flat field set of lines 414-430).
`route_geojson` keeps the geometry's coordinate list (the serialized
GeoJSON of the source). -/
structure Row where
  timestamp_utc : String
  respondent_id : String
  age_group : String
  role : String
  commute_freq : String
  route_index : ℕ
  route_distance_m : ℚ
  start_lat : ℚ
  start_lon : ℚ
  end_lat : ℚ
  end_lon : ℚ
  route_geojson : List (ℚ × ℚ)
  issues : String
  suggestions : String
  gbfs_url : String
deriving DecidableEq

/-- The sidebar form values read by the submit handler, with the consent
checkbox; `respondent_id` and `timestamp_utc` are computed once per
submission (lines 399-400), before the per-route loop. -/
structure SubmitForm where
  consent : Bool
  respondent_id : String
  timestamp_utc : String
  age_group : String
  role : String
  commute_freq : String
  issues : String
  suggestions : String
  gbfs_url : String

/-- The body of the per-route loop (lines 406-430) for the route at
0-based position `i` with coordinate list `coords` (GeoJSON `[lon, lat]`
pairs): start/end are the lon/lat-swapped first/last coordinates rounded
to 6 decimals, the distance is recomputed from the geometry and rounded to
0.1 m, and the index stored is `i + 1`. -/
def mkRow (dist : ℚ × ℚ → ℚ × ℚ → ℚ) (form : SubmitForm) (i : ℕ)
    (coords : List (ℚ × ℚ)) : Row :=
  let start := coords.headD (0, 0)
  let stop := coords.getLastD (0, 0)
  let d := recomputeDistance dist coords
  { timestamp_utc := form.timestamp_utc
    respondent_id := form.respondent_id
    age_group := form.age_group
    role := form.role
    commute_freq := form.commute_freq
    route_index := i + 1
    route_distance_m := pyRound 1 d
    start_lat := pyRound 6 start.2
    start_lon := pyRound 6 start.1
    end_lat := pyRound 6 stop.2
    end_lon := pyRound 6 stop.1
    route_geojson := coords
    issues := form.issues
    suggestions := form.suggestions
    gbfs_url := form.gbfs_url }

/-- The `for i, feat in enumerate(st.session_state["my_routes"])` loop:
routes with an empty coordinate list are skipped (`if not coords:
continue`) while the enumeration index keeps counting. -/
def submitRowsAux (dist : ℚ × ℚ → ℚ × ℚ → ℚ) (form : SubmitForm) :
    ℕ → List (List (ℚ × ℚ)) → List Row
  | _, [] => []
  | i, coords :: rest =>
      if coords.isEmpty then submitRowsAux dist form (i + 1) rest
      else mkRow dist form i coords :: submitRowsAux dist form (i + 1) rest

/-- The submit guards of lines 394-397: missing consent ("You must consent
before submitting.") and empty collection ("Add at least one route."). -/
inductive SubmitError
  | consentRequired
  | emptyCollection
deriving DecidableEq

/-- The submit handler: guards, then the append loop.  The `ok` payload is
the list of rows passed to `append_row`, in call order. -/
def submit (dist : ℚ × ℚ → ℚ × ℚ → ℚ) (form : SubmitForm)
    (my_routes : List (List (ℚ × ℚ))) : Except SubmitError (List Row) :=
  if form.consent = false then Except.error SubmitError.consentRequired
  else if my_routes.length = 0 then Except.error SubmitError.emptyCollection
  else Except.ok (submitRowsAux dist form 0 my_routes)

lemma pyRound_six_eq_self (q : ℚ) (h : sixDecimal q) : pyRound 6 q = q := by
  have hx : ((q * 1000000).num : ℚ) = q * 1000000 :=
    (Rat.den_eq_one_iff _).mp h
  have h6 : q * 10 ^ (6:ℕ) = ((q * 1000000).num : ℚ) := by
    rw [hx]; norm_num
  unfold pyRound roundHalfEven
  rw [h6, Int.floor_intCast, sub_self]
  norm_num
  rw [hx]
  field_simp

lemma headD_mem {α : Type} (l : List α) (d : α) (h : l ≠ []) :
    l.headD d ∈ l := by
  cases l with
  | nil => exact absurd rfl h
  | cons a t => simp

lemma getLastD_mem {α : Type} : ∀ (l : List α) (d : α), l ≠ [] →
    l.getLastD d ∈ l := by
  intro l
  induction l with
  | nil => intro d h; exact absurd rfl h
  | cons a t ih =>
      intro d _
      cases t with
      | nil => simp
      | cons b t' =>
          rw [List.getLastD_cons]
          exact List.mem_cons_of_mem a (ih b (by simp))

lemma submitRowsAux_all_nonempty (dist : ℚ × ℚ → ℚ × ℚ → ℚ)
    (form : SubmitForm) :
    ∀ (routes : List (List (ℚ × ℚ))) (i : ℕ),
      (∀ g ∈ routes, g ≠ []) →
      submitRowsAux dist form i routes
        = routes.mapIdx (fun k coords => mkRow dist form (i + k) coords) := by
  intro routes
  induction routes with
  | nil => intro i _; simp [submitRowsAux]
  | cons g rest ih =>
      intro i hall
      have hg : g ≠ [] := hall g (List.mem_cons_self g rest)
      have hge : g.isEmpty = false := by
        cases g with
        | nil => exact absurd rfl hg
        | cons a t => rfl
      rw [submitRowsAux, if_neg (by rw [hge]; exact fun hc => nomatch hc)]
      rw [ih (i + 1) (fun x hx => hall x (List.mem_cons_of_mem g hx))]
      rw [List.mapIdx_cons]
      have harg : (fun (k : ℕ) (c : List (ℚ × ℚ)) => mkRow dist form (i + 1 + k) c)
          = fun (k : ℕ) c => mkRow dist form (i + (k + 1)) c := by
        funext k c
        congr 1
        omega
      rw [harg]
      simp

lemma submitRowsAux_length (dist : ℚ × ℚ → ℚ × ℚ → ℚ) (form : SubmitForm) :
    ∀ (routes : List (List (ℚ × ℚ))) (i : ℕ),
      (submitRowsAux dist form i routes).length
        = (routes.filter (fun g => !g.isEmpty)).length := by
  intro routes
  induction routes with
  | nil => intro i; simp [submitRowsAux]
  | cons g rest ih =>
      intro i
      by_cases hg : g.isEmpty = true
      · simp [submitRowsAux, hg, List.filter_cons, ih]
      · simp [submitRowsAux, hg, List.filter_cons, ih]

lemma mem_submitRowsAux (dist : ℚ × ℚ → ℚ × ℚ → ℚ) (form : SubmitForm) :
    ∀ (routes : List (List (ℚ × ℚ))) (i : ℕ) (row : Row),
      row ∈ submitRowsAux dist form i routes ↔
        ∃ (k : ℕ) (hk : k < routes.length),
          routes[k] ≠ [] ∧ row = mkRow dist form (i + k) routes[k] := by
  intro routes
  induction routes with
  | nil => intro i row; simp [submitRowsAux]
  | cons g rest ih =>
      intro i row
      by_cases hg : g.isEmpty = true
      · have hge : g = [] := by
          cases g with
          | nil => rfl
          | cons a t => simp at hg
        subst hge
        rw [show submitRowsAux dist form i ([] :: rest)
              = submitRowsAux dist form (i + 1) rest from rfl]
        rw [ih (i + 1)]
        constructor
        · rintro ⟨k, hk, hkne, hrow⟩
          refine ⟨k + 1, ?_, ?_, ?_⟩
          · simp only [List.length_cons]; omega
          · simpa using hkne
          · subst hrow
            simp only [List.getElem_cons_succ]
            congr 1
            omega
        · rintro ⟨k, hk, hkne, hrow⟩
          cases k with
          | zero => simp at hkne
          | succ k2 =>
              refine ⟨k2, ?_, ?_, ?_⟩
              · simp only [List.length_cons] at hk; omega
              · simpa using hkne
              · simp only [List.getElem_cons_succ] at hrow
                rw [hrow]
                congr 1
                omega
      · have hgne : g ≠ [] := by
          cases g with
          | nil => simp at hg
          | cons a t => exact fun hc => nomatch hc
        have hstep : submitRowsAux dist form i (g :: rest)
            = mkRow dist form i g :: submitRowsAux dist form (i + 1) rest := by
          simp only [submitRowsAux]
          rw [if_neg hg]
        rw [hstep, List.mem_cons, ih (i + 1)]
        constructor
        · rintro (hrow | ⟨k, hk, hkne, hrow⟩)
          · refine ⟨0, ?_, ?_, ?_⟩
            · simp
            · simpa using hgne
            · simpa using hrow
          · refine ⟨k + 1, ?_, ?_, ?_⟩
            · simp only [List.length_cons]; omega
            · simpa using hkne
            · subst hrow
              simp only [List.getElem_cons_succ]
              congr 1
              omega
        · rintro ⟨k, hk, hkne, hrow⟩
          cases k with
          | zero =>
              left
              simpa using hrow
          | succ k2 =>
              right
              refine ⟨k2, ?_, ?_, ?_⟩
              · simp only [List.length_cons] at hk; omega
              · simpa using hkne
              · simp only [List.getElem_cons_succ] at hrow
                rw [hrow]
                congr 1
                omega

/-- C8: for every session state, submitting without consent fails with the
consent error and hands zero rows to the Route Store, regardless of the
collection size; submitting with consent over an empty collection fails
with the empty-collection error and performs no persistence (an error
outcome carries no appended rows). -/
theorem submit_consent_and_empty_guards (dist : ℚ × ℚ → ℚ × ℚ → ℚ)
    (form : SubmitForm) (routes : List (List (ℚ × ℚ))) :
    (form.consent = false →
       submit dist form routes = Except.error SubmitError.consentRequired) ∧
    (form.consent = true → routes = [] →
       submit dist form routes = Except.error SubmitError.emptyCollection) := by
  constructor
  · intro h
    simp [submit, h]
  · intro h hr
    subst hr
    simp [submit, h]

/-- Witness for C8: with consent unchecked a one-route collection is
rejected with the consent error; with consent checked the empty collection
is rejected with the empty-collection error. -/
theorem submit_consent_and_empty_guards_witness :
    submit geodesicModel
        { consent := false, respondent_id := "r1", timestamp_utc := "t1",
          age_group := "25-34", role := "Resident", commute_freq := "Daily",
          issues := "", suggestions := "", gbfs_url := "sample" }
        [[(0, 0), (1, 1)]]
      = Except.error SubmitError.consentRequired ∧
    submit geodesicModel
        { consent := true, respondent_id := "r1", timestamp_utc := "t1",
          age_group := "25-34", role := "Resident", commute_freq := "Daily",
          issues := "", suggestions := "", gbfs_url := "sample" }
        []
      = Except.error SubmitError.emptyCollection :=
  ⟨(submit_consent_and_empty_guards geodesicModel _ _).1 rfl,
   (submit_consent_and_empty_guards geodesicModel _ _).2 rfl rfl⟩

/-- C3: for every session with a non-empty collection of (non-degenerate,
service-precision) routes and consent given, submit succeeds and hands the
Route Store one row per collected route, in collection order: the k-th row
carries the 1-based index `k + 1`, the shared submission timestamp and
respondent identifier, and start/end coordinates equal to the
(lon/lat-swapped) first/last point of its own geometry.  The hypotheses
are the data-model invariants: collected geometries are non-empty and the
service's coordinates carry at most 6 decimal places (so the 6-decimal
rounding of lines 422-425 is the identity). -/
theorem submit_builds_one_record_per_route (dist : ℚ × ℚ → ℚ × ℚ → ℚ)
    (form : SubmitForm) (routes : List (List (ℚ × ℚ)))
    (hconsent : form.consent = true) (hne : routes ≠ [])
    (hvalid : ∀ g ∈ routes, g ≠ [])
    (hprec : ∀ g ∈ routes, ∀ c ∈ g, sixDecimal c.1 ∧ sixDecimal c.2) :
    ∃ rows : List Row,
      submit dist form routes = Except.ok rows ∧
      rows.length = routes.length ∧
      ∀ (k : ℕ) (hk : k < routes.length) (hk2 : k < rows.length),
        (rows.get ⟨k, hk2⟩).route_index = k + 1 ∧
        (rows.get ⟨k, hk2⟩).timestamp_utc = form.timestamp_utc ∧
        (rows.get ⟨k, hk2⟩).respondent_id = form.respondent_id ∧
        (rows.get ⟨k, hk2⟩).start_lat = (routes[k].headD (0, 0)).2 ∧
        (rows.get ⟨k, hk2⟩).start_lon = (routes[k].headD (0, 0)).1 ∧
        (rows.get ⟨k, hk2⟩).end_lat = (routes[k].getLastD (0, 0)).2 ∧
        (rows.get ⟨k, hk2⟩).end_lon = (routes[k].getLastD (0, 0)).1 ∧
        (rows.get ⟨k, hk2⟩).route_geojson = routes[k] := by
  have hrows := submitRowsAux_all_nonempty dist form routes 0 hvalid
  refine ⟨submitRowsAux dist form 0 routes, ?_, ?_, ?_⟩
  · simp [submit, hconsent, List.length_eq_zero, hne]
  · rw [hrows]; simp
  · intro k hk hk2
    have hget : (submitRowsAux dist form 0 routes).get ⟨k, hk2⟩
        = mkRow dist form k routes[k] := by
      have h2 : (submitRowsAux dist form 0 routes)[k]?
          = some (mkRow dist form k routes[k]) := by
        rw [hrows]
        simp [List.getElem?_mapIdx, List.getElem?_eq_getElem hk]
      have h3 := List.getElem?_eq_getElem hk2
      rw [h2] at h3
      rw [List.get_eq_getElem]
      exact (Option.some_inj.mp h3).symm
    rw [hget]
    have hmem : routes[k] ∈ routes := List.getElem_mem hk
    have hgne : routes[k] ≠ [] := hvalid _ hmem
    have hhead := hprec _ hmem _ (headD_mem routes[k] (0, 0) hgne)
    have hlast := hprec _ hmem _ (getLastD_mem routes[k] (0, 0) hgne)
    refine ⟨rfl, rfl, rfl, ?_, ?_, ?_, ?_, rfl⟩
    · exact pyRound_six_eq_self _ hhead.2
    · exact pyRound_six_eq_self _ hhead.1
    · exact pyRound_six_eq_self _ hlast.2
    · exact pyRound_six_eq_self _ hlast.1

/-- Witness for C3: two accepted two-point routes with consent produce two
rows with index 1 and 2, one shared timestamp and respondent id, and
start/end equal to each geometry's first/last point. -/
theorem submit_builds_one_record_per_route_witness :
    ∃ rows : List Row,
      submit geodesicModel
          { consent := true, respondent_id := "r1", timestamp_utc := "t1",
            age_group := "25-34", role := "Resident", commute_freq := "Daily",
            issues := "", suggestions := "", gbfs_url := "sample" }
          [[(0, 0), (1, 1)], [(2, 2), (3, 3)]]
        = Except.ok rows ∧
      rows.length = 2 ∧
      ∀ (k : ℕ) (hk : k < ([[((0:ℚ), (0:ℚ)), (1, 1)], [(2, 2), (3, 3)]] :
          List (List (ℚ × ℚ))).length)
        (hk2 : k < rows.length),
        (rows.get ⟨k, hk2⟩).route_index = k + 1 ∧
        (rows.get ⟨k, hk2⟩).timestamp_utc = "t1" ∧
        (rows.get ⟨k, hk2⟩).respondent_id = "r1" ∧
        (rows.get ⟨k, hk2⟩).start_lat
          = (([[((0:ℚ), (0:ℚ)), (1, 1)], [(2, 2), (3, 3)]] :
              List (List (ℚ × ℚ)))[k].headD (0, 0)).2 ∧
        (rows.get ⟨k, hk2⟩).start_lon
          = (([[((0:ℚ), (0:ℚ)), (1, 1)], [(2, 2), (3, 3)]] :
              List (List (ℚ × ℚ)))[k].headD (0, 0)).1 ∧
        (rows.get ⟨k, hk2⟩).end_lat
          = (([[((0:ℚ), (0:ℚ)), (1, 1)], [(2, 2), (3, 3)]] :
              List (List (ℚ × ℚ)))[k].getLastD (0, 0)).2 ∧
        (rows.get ⟨k, hk2⟩).end_lon
          = (([[((0:ℚ), (0:ℚ)), (1, 1)], [(2, 2), (3, 3)]] :
              List (List (ℚ × ℚ)))[k].getLastD (0, 0)).1 ∧
        (rows.get ⟨k, hk2⟩).route_geojson
          = ([[((0:ℚ), (0:ℚ)), (1, 1)], [(2, 2), (3, 3)]] :
              List (List (ℚ × ℚ)))[k] :=
  submit_builds_one_record_per_route geodesicModel _ _ rfl (by simp)
    (by intro g hg; fin_cases hg <;> simp)
    (by
      intro g hg c hc
      fin_cases hg <;> fin_cases hc <;>
        exact ⟨by norm_num [sixDecimal], by norm_num [sixDecimal]⟩)

/-- C10: routes whose geometry has an empty coordinate list are skipped by
the submit loop (`if not coords: continue`) while the loop keeps counting,
so no row carries their index, every route with a non-empty geometry is
still written under its original 1-based position, and the number of rows
equals the number of non-empty geometries (hence can be smaller than the
collection size, leaving gaps in the persisted index sequence). -/
theorem submit_skips_empty_geometry_routes (dist : ℚ × ℚ → ℚ × ℚ → ℚ)
    (form : SubmitForm) (routes : List (List (ℚ × ℚ)))
    (hconsent : form.consent = true) (hne : routes ≠ []) :
    ∃ rows : List Row,
      submit dist form routes = Except.ok rows ∧
      rows.length = (routes.filter (fun g => !g.isEmpty)).length ∧
      (∀ (k : ℕ) (hk : k < routes.length), routes[k] = [] →
         ∀ row ∈ rows, row.route_index ≠ k + 1) ∧
      (∀ (k : ℕ) (hk : k < routes.length), routes[k] ≠ [] →
         ∃ row ∈ rows, row.route_index = k + 1 ∧
           row.route_geojson = routes[k]) := by
  refine ⟨submitRowsAux dist form 0 routes, ?_,
    submitRowsAux_length dist form routes 0, ?_, ?_⟩
  · simp [submit, hconsent, List.length_eq_zero, hne]
  · intro k hk hempty row hrow
    rw [mem_submitRowsAux] at hrow
    obtain ⟨j, hj, hjne, hrow⟩ := hrow
    subst hrow
    simp only [mkRow]
    intro hidx
    have hjk : j = k := by omega
    subst hjk
    exact hjne hempty
  · intro k hk hkne
    refine ⟨mkRow dist form (0 + k) routes[k], ?_, ?_, ?_⟩
    · rw [mem_submitRowsAux]
      exact ⟨k, hk, hkne, rfl⟩
    · simp [mkRow]
    · simp [mkRow]

/-- Witness for C10: a three-route collection whose middle geometry is
empty yields two rows, carrying the gapped indices 1 and 3. -/
theorem submit_skips_empty_geometry_routes_witness :
    ∃ rows : List Row,
      submit geodesicModel
          { consent := true, respondent_id := "r1", timestamp_utc := "t1",
            age_group := "25-34", role := "Resident", commute_freq := "Daily",
            issues := "", suggestions := "", gbfs_url := "sample" }
          [[(0, 0), (1, 1)], [], [(2, 2), (3, 3)]]
        = Except.ok rows ∧
      rows.length = (([[((0:ℚ), (0:ℚ)), (1, 1)], [], [(2, 2), (3, 3)]] :
          List (List (ℚ × ℚ))).filter (fun g => !g.isEmpty)).length ∧
      (∀ (k : ℕ) (hk : k < ([[((0:ℚ), (0:ℚ)), (1, 1)], [], [(2, 2), (3, 3)]] :
          List (List (ℚ × ℚ))).length),
         ([[((0:ℚ), (0:ℚ)), (1, 1)], [], [(2, 2), (3, 3)]] :
            List (List (ℚ × ℚ)))[k] = [] →
         ∀ row ∈ rows, row.route_index ≠ k + 1) ∧
      (∀ (k : ℕ) (hk : k < ([[((0:ℚ), (0:ℚ)), (1, 1)], [], [(2, 2), (3, 3)]] :
          List (List (ℚ × ℚ))).length),
         ([[((0:ℚ), (0:ℚ)), (1, 1)], [], [(2, 2), (3, 3)]] :
            List (List (ℚ × ℚ)))[k] ≠ [] →
         ∃ row ∈ rows, row.route_index = k + 1 ∧
           row.route_geojson
             = ([[((0:ℚ), (0:ℚ)), (1, 1)], [], [(2, 2), (3, 3)]] :
                 List (List (ℚ × ℚ)))[k]) :=
  submit_skips_empty_geometry_routes geodesicModel _ _ rfl (by simp)

/-! ## Route Densifier (src/app.py lines 196-212)

`densify_for_heatmap` walks every consecutive coordinate pair, computes
the segment's geodesic length, takes `n = max(1, int(seg_m // step))`, and
appends `n` points linearly interpolated in (lat, lon) space at
`t = k / n`, `k = 0 .. n-1`. -/

/-- Linear interpolation in `(lat, lon)` space (lines 208-210). -/
def lerp (a b : ℚ × ℚ) (t : ℚ) : ℚ × ℚ :=
  (a.1 + (b.1 - a.1) * t, a.2 + (b.2 - a.2) * t)

/-- The inner sampling loop for one (already lon/lat-swapped) segment
(lines 205-211): `n = max(1, int(seg_m // step))` samples at `t = k / n`. -/
def segmentSamples (dist : ℚ × ℚ → ℚ × ℚ → ℚ) (step : ℚ) (a b : ℚ × ℚ) :
    List (ℚ × ℚ) :=
  let n : ℕ := (max 1 ⌊dist a b / step⌋).toNat
  (List.range n).map (fun (k : ℕ) => lerp a b ((k : ℚ) / (n : ℚ)))

/-- `densify_for_heatmap`: iterate over consecutive coordinate pairs of the
GeoJSON line, lon/lat-swap each, and append that segment's samples to the
accumulating `pts` list. -/
def densify_for_heatmap (dist : ℚ × ℚ → ℚ × ℚ → ℚ)
    (coords : List (ℚ × ℚ)) (step : ℚ) : List (ℚ × ℚ) :=
  (List.zip coords coords.tail).foldl
    (fun pts p =>
      pts ++ segmentSamples dist step (swapLonLat p.1) (swapLonLat p.2)) []

/-- Specification-side densifier: for every consecutive pair, in input
order, emit that segment's samples — no segment skipped. -/
def densifySegments (dist : ℚ × ℚ → ℚ × ℚ → ℚ) (step : ℚ) :
    List (ℚ × ℚ) → List (ℚ × ℚ)
  | a :: b :: rest =>
      segmentSamples dist step (swapLonLat a) (swapLonLat b)
        ++ densifySegments dist step (b :: rest)
  | _ => []

lemma densify_foldl_aux (dist : ℚ × ℚ → ℚ × ℚ → ℚ) (step : ℚ) :
    ∀ (rest : List (ℚ × ℚ)) (a : ℚ × ℚ) (acc : List (ℚ × ℚ)),
      (List.zip (a :: rest) rest).foldl
          (fun pts p =>
            pts ++ segmentSamples dist step (swapLonLat p.1) (swapLonLat p.2))
          acc
        = acc ++ densifySegments dist step (a :: rest) := by
  intro rest
  induction rest with
  | nil => intro a acc; simp [densifySegments]
  | cons b rest ih =>
      intro a acc
      have hzip : List.zip (a :: b :: rest) (b :: rest)
          = (a, b) :: List.zip (b :: rest) rest := rfl
      rw [hzip, List.foldl_cons, ih b]
      simp [densifySegments, List.append_assoc]

/-- C5: the densifier emits, for every consecutive pair `(a, b)` in input
order, exactly `n = max(1, ⌊L / step⌋)` points (`L` the segment's geodesic
length) linearly interpolated at `t = k / n` for `k = 0 .. n-1`; every
parameter is `< 1`, so the final endpoint of a segment is never sampled
(`t = 0` gives the start point itself), and a segment shorter than `step`
— including a zero-length one — emits exactly one point at `t = 0`, so no
segment is skipped. -/
theorem densify_emits_per_segment_samples (dist : ℚ × ℚ → ℚ × ℚ → ℚ)
    (step : ℚ) (coords : List (ℚ × ℚ)) (hstep : 0 < step) :
    densify_for_heatmap dist coords step = densifySegments dist step coords ∧
    (∀ a b : ℚ × ℚ, ∃ n : ℕ, 0 < n ∧ (n : ℤ) = max 1 ⌊dist a b / step⌋ ∧
       segmentSamples dist step a b
         = (List.range n).map (fun (k : ℕ) => lerp a b ((k : ℚ) / (n : ℚ))) ∧
       (segmentSamples dist step a b).length = n ∧
       (∀ k : ℕ, k < n → (k : ℚ) / (n : ℚ) < 1) ∧
       (dist a b < step → n = 1)) ∧
    (∀ a b : ℚ × ℚ, lerp a b 0 = a) := by
  refine ⟨?_, ?_, ?_⟩
  · cases coords with
    | nil => rfl
    | cons a rest =>
        show (List.zip (a :: rest) rest).foldl _ [] = _
        rw [densify_foldl_aux dist step rest a []]
        simp
  · intro a b
    have h1 : (1:ℤ) ≤ max 1 ⌊dist a b / step⌋ := le_max_left _ _
    refine ⟨(max 1 ⌊dist a b / step⌋).toNat, by omega, by omega, rfl, ?_, ?_, ?_⟩
    · rw [show segmentSamples dist step a b
          = (List.range (max 1 ⌊dist a b / step⌋).toNat).map
              (fun (k : ℕ) => lerp a b
                ((k : ℚ) / ((max 1 ⌊dist a b / step⌋).toNat : ℚ))) from rfl]
      rw [List.length_map, List.length_range]
    · intro k hk
      have hn : (0:ℚ) < ((max 1 ⌊dist a b / step⌋).toNat : ℚ) := by
        exact_mod_cast by omega
      rw [div_lt_one hn]
      exact_mod_cast hk
    · intro hlt
      have hfloor : ⌊dist a b / step⌋ < 1 := by
        rw [Int.floor_lt]
        push_cast
        rw [div_lt_one hstep]
        exact hlt
      omega
  · intro a b
    simp [lerp]

/-- Witness for C5: on the two-point line `[[0, 0], [0, 0.001]]` (a ≈111 m
segment under the model distance) with step 30 the densifier agrees with
the per-segment specification. -/
theorem densify_emits_per_segment_samples_witness :
    densify_for_heatmap geodesicModel [(0, 0), (0, 1/1000)] 30
      = densifySegments geodesicModel 30 [(0, 0), (0, 1/1000)] :=
  (densify_emits_per_segment_samples geodesicModel 30 [(0, 0), (0, 1/1000)]
    (by norm_num)).1

end BikeSurvey
